import Mathlib

/-!
Verification development for the usb-moded mode activation engine
(`src/usb_moded-modesetting.c`) and the dynamic mode-descriptor loader
(`src/usb_moded-dyn-config.c`).

The C code is shallowly embedded as executable Lean definitions:

* file contents are byte lists (`List Nat`, each element a `char` value 0..255);
* the external world (sysfs reads/writes, shell commands, backend presence,
  configuration lookups) is an oracle record `Env`;
* the global mutable state of the engine (the tracked-values hash table, the
  pending delayed-network timer, and a tick counting external command
  invocations so that repeated invocations of the same command may yield
  different results) is a record `EngineState` threaded explicitly;
* observable side effects (sysfs write attempts, emitted D-Bus signals, shell
  commands, sleeps, ...) are collected in an event list `List Ev`.

Symbolic constants that live in headers not present in this repository slice
(`usb_moded-dbus.h`, `usb_moded-android.h`, `usb_moded-modules.h`) are modelled
as abstract labels (`Sig`, `Err`) or as named string constants; only their
identity (not their spelling) is used.
-/

/- ===================================================================== *
 * Basic labels                                                          *
 * ===================================================================== -/

/-- Severity of a log line (log_debug / log_warning / log_err / log_crit). -/
inductive LogLevel where
  | debug
  | warning
  | err
  | crit
deriving DecidableEq, Repr

/-- A log line: severity plus the path/file the message concerns. -/
abbrev LogEntry := LogLevel × String

/-- State-change signals sent with `umdbus_send_state_signal`
    (`USB_PRE_UNMOUNT`, `DATA_IN_USE` from usb_moded-dbus.h). -/
inductive Sig where
  | pre_unmount
  | data_in_use
deriving DecidableEq, Repr

/-- Error signals sent with `umdbus_send_error_signal`
    (`UMOUNT_ERROR`, `RE_MOUNT_FAILED`, `MODE_SETTING_FAILED`). -/
inductive Err where
  | umount_error
  | re_mount_failed
  | mode_setting_failed
deriving DecidableEq, Repr

/-- Shell commands passed to `usbmoded_system`.  The C code builds these as
    strings with `g_strconcat`/`sprintf`; each constructor corresponds to one
    command-building site and carries the varying parts of the string. -/
inductive Cmd where
  /-- `"mount | grep " + mountpath` -/
  | grepMount (mountpath : String)
  /-- `"umount " + mountpath` -/
  | umount (mountpath : String)
  /-- `"mount " + mountpath` -/
  | mount (mountpath : String)
  /-- `"mount -t tmpfs tmpfs -o ro --size=512K " + altmount` -/
  | mountTmpfs (altmount : String)
  /-- `"modprobe <module> luns=<n> \n"` -/
  | modprobe (module_ : String) (luns : Int)
  /-- `"echo <fua>  > /sys/.../gadget-lun<i>/nofua"` -/
  | echoNofua (fua : Int) (lun : Int)
  /-- `"echo \"\"  > /sys/.../gadget-lun<i>/file"` -/
  | echoClearLun (lun : Int)
deriving DecidableEq, Repr

/-- Observable side effects of the engine, in program order. -/
inductive Ev where
  /-- A call of `write_to_file(path, text)` with both arguments non-NULL:
      `text` is the value after the `""`/`"none"` translation, `res` the
      return value of the call. -/
  | write (path text : String) (res : Int)
  | stateSignal (s : Sig)
  | errorSignal (e : Err)
  /-- `usbmoded_system(cmd)` returning `res`. -/
  | systemCmd (cmd : Cmd) (res : Int)
  /-- `usbmoded_sleep(secs)` -/
  | sleep (secs : Nat)
  /-- `usbmoded_msleep(ms)` -/
  | msleep (ms : Nat)
  /-- `modesetting_report_mass_storage_blocker(mountpoint, try)` -/
  | report (mountpoint : String) (try_ : Nat)
  /-- `android_set_productid(id)` -/
  | setProductId (id : Option String)
  /-- `android_set_vendorid(id)` -/
  | setVendorId (id : Option String)
  | networkDown
  | networkUp (res : Int)
  | setupDhcpd
  /-- `appsync_activate_sync(mode)` returning `res` -/
  | appsyncPre (mode : String) (res : Int)
  /-- `appsync_activate_sync_post(mode)` -/
  | appsyncPost (mode : String)
  /-- `g_source_remove(id)` of the delayed network retry -/
  | cancelTimer (id : Nat)
  /-- `g_timeout_add_seconds(3, modesetting_network_retry, data)` returning `id` -/
  | scheduleTimer (id : Nat)
  /-- `configfs_set_udc(b)` -/
  | configfsUdc (b : Bool)
  | configfsProductId (id : Option String)
  | configfsVendorId (id : Option String)
  | configfsFunction (f : Option String)
  /-- `modules_unload_module(m)` -/
  | modulesUnload (module_ : String)
deriving DecidableEq, Repr

/- ===================================================================== *
 * Constants from headers outside this repository slice                  *
 * ===================================================================== -/

/-- `ANDROID0_FUNCTIONS` (usb_moded-android.h): the android gadget function
    list attribute.  Only its identity matters; value as in upstream. -/
def ANDROID0_FUNCTIONS : String := "/sys/class/android_usb/android0/functions"

/-- `ANDROID0_ENABLE` (usb_moded-android.h). -/
def ANDROID0_ENABLE : String := "/sys/class/android_usb/android0/enable"

/-- `MODULE_NONE` (usb_moded-modules.h): sentinel meaning "no discrete
    kernel module". -/
def MODULE_NONE : String := "none"

/-- `MODULE_MASS_STORAGE` (usb_moded-modules.h). -/
def MODULE_MASS_STORAGE : String := "g_mass_storage"

/-- `MODE_MASS_STORAGE` (usb_moded-modes.h). -/
def MODE_MASS_STORAGE : String := "mass_storage"

/- ===================================================================== *
 * modesetting_strip: whitespace normalisation of read sysfs values      *
 * ===================================================================== -/

/-- The character class skipped by `modesetting_strip`:
    `*src > 0 && *src <= 32` (unsigned char). -/
def wsb (c : Nat) : Bool := decide (0 < c ∧ c ≤ 32)

/-- The character class copied by `modesetting_strip`: `*src > 32`. -/
def keepb (c : Nat) : Bool := decide (32 < c)

/-- Bytes before the first NUL: the portion of a buffer that C string
    handling (`modesetting_strip` works on a NUL-terminated buffer) sees. -/
def nzb (c : Nat) : Bool := decide (c ≠ 0)

/-- If `l.dropWhile p` starts with `c`, then `p c` is false. -/
theorem dropWhile_head_false (p : Nat → Bool) (l : List Nat) (c : Nat) (t : List Nat)
    (h : l.dropWhile p = c :: t) : p c = false := by
  induction l with
  | nil => simp at h
  | cons a l ih =>
    by_cases hp : p a
    · rw [List.dropWhile_cons_of_pos hp] at h
      exact ih h
    · rw [List.dropWhile_cons_of_neg hp] at h
      injection h with h1 _
      rw [← h1]
      simpa using hp

/-- `dropWhile` never lengthens a list. -/
theorem dropWhile_len_le (p : Nat → Bool) (l : List Nat) :
    (l.dropWhile p).length ≤ l.length :=
  (List.dropWhile_sublist _).length_le

/-- The `for(;;)` loop of `modesetting_strip`: copy a run of characters
    `> 32`, skip a run of characters in `1..32`, stop at NUL (modelled as a
    0 byte or the end of the list), otherwise emit a single `' '` (byte 32)
    and continue. -/
def stripMain (src : List Nat) : List Nat :=
  if ((src.dropWhile keepb).dropWhile wsb) = [] ∨
     ((src.dropWhile keepb).dropWhile wsb).head? = some 0 then
    src.takeWhile keepb
  else
    src.takeWhile keepb ++ 32 :: stripMain ((src.dropWhile keepb).dropWhile wsb)
termination_by src.length
decreasing_by
  rename_i hcond
  simp only [not_or] at hcond
  cases src with
  | nil => simp at hcond
  | cons c t =>
    by_cases hk : keepb c
    · have h1 : ((c :: t).dropWhile keepb).length ≤ t.length := by
        rw [List.dropWhile_cons_of_pos hk]
        exact dropWhile_len_le _ _
      have h2 : (((c :: t).dropWhile keepb).dropWhile wsb).length ≤
          ((c :: t).dropWhile keepb).length := dropWhile_len_le _ _
      simp only [List.length_cons]
      omega
    · by_cases hw : wsb c
      · have h1 : (((c :: t).dropWhile keepb).dropWhile wsb).length ≤ t.length := by
          rw [List.dropWhile_cons_of_neg hk, List.dropWhile_cons_of_pos hw]
          exact dropWhile_len_le _ _
        simp only [List.length_cons]
        omega
      · exfalso
        have hd : ((c :: t).dropWhile keepb).dropWhile wsb = c :: t := by
          rw [List.dropWhile_cons_of_neg hk, List.dropWhile_cons_of_neg hw]
        have hc0 : c = 0 := by
          simp only [wsb, keepb, decide_eq_true_eq] at hk hw
          omega
        apply hcond.2
        rw [hd, hc0]
        rfl

/-- `modesetting_strip(str)`: skip leading whitespace/control characters,
    then run the main loop. -/
def modesetting_strip (src : List Nat) : List Nat :=
  stripMain (src.dropWhile wsb)

/- ===================================================================== *
 * Specification-side collapse function (for claim C9)                   *
 * ===================================================================== -/

/-- Specification-side word decomposition: the list of maximal runs of
    non-whitespace/control characters (a character is whitespace/control when
    its value is `≤ 32`; a non-whitespace character is one with value
    `> 32`).  Written from the spec's read contract, to be compared with the
    source-derived `modesetting_strip`. -/
def spec_words (l : List Nat) : List (List Nat) :=
  if (l.dropWhile (fun c => decide (c ≤ 32))) = [] then []
  else (l.dropWhile (fun c => decide (c ≤ 32))).takeWhile keepb ::
       spec_words ((l.dropWhile (fun c => decide (c ≤ 32))).dropWhile keepb)
termination_by l.length
decreasing_by
  rename_i hne
  cases hl1 : l.dropWhile (fun c => decide (c ≤ 32)) with
  | nil => exact absurd hl1 hne
  | cons c t =>
    have hc : (fun c => decide (c ≤ 32)) c = false :=
      dropWhile_head_false _ l c t hl1
    have hk : keepb c := by
      simp only [decide_eq_false_iff_not, not_le] at hc
      simpa [keepb] using hc
    have h1 : (l.dropWhile fun c => decide (c ≤ 32)).length ≤ l.length :=
      dropWhile_len_le _ _
    rw [hl1] at h1
    have h2 : (List.dropWhile keepb (c :: t)).length ≤ t.length := by
      rw [List.dropWhile_cons_of_pos hk]
      exact dropWhile_len_le _ _
    simp only [List.length_cons] at h1
    omega

/-- Joining words with single spaces (byte 32): together with `spec_words`
    this expresses "collapse every maximal run of contiguous
    whitespace/control characters to a single space and trim leading and
    trailing whitespace". -/
def joinWords : List (List Nat) → List Nat
  | [] => []
  | [w] => w
  | w :: ws => w ++ 32 :: joinWords ws

/-- The spec's read normalisation. -/
def spec_collapse (l : List Nat) : List Nat := joinWords (spec_words l)

/- ===================================================================== *
 * modesetting_read_from_file                                            *
 * ===================================================================== -/

/-- Result of `open(path, O_RDONLY)` plus the readable content: either an
    errno class distinguished by the source (`ENOENT`, `EACCES`, everything
    else), or the file's bytes.  The model assumes that once the open
    succeeded, allocation and the single bounded `read` succeed as well. -/
inductive OpenRes where
  | enoent
  | eacces
  | othererr
  | ok (bytes : List Nat)

/-- `modesetting_read_from_file(path, maxsize)`: open; on `ENOENT`/`EACCES`
    silently return NULL; on any other open failure return NULL after a
    warning; otherwise read at most `maxsize` bytes, NUL-terminate and strip.
    Returns the produced C string (as a byte list) or `none` for NULL,
    together with the log lines emitted. -/
def modesetting_read_from_file (fs : String → OpenRes) (path : String) (maxsize : Nat) :
    Option (List Nat) × List LogEntry :=
  match fs path with
  | .enoent => (none, [])
  | .eacces => (none, [])
  | .othererr => (none, [(.warning, path)])
  | .ok bytes => (some (modesetting_strip (bytes.take maxsize)), [])

/-- A byte list as a Lean string (for connecting the byte-level read model
    with the string-valued tracker). -/
def bytesToStr (l : List Nat) : String := String.mk (l.map Char.ofNat)

/- ===================================================================== *
 * Sysfs Value Tracker                                                   *
 * ===================================================================== -/

/-- The tracked-values map: path to last written value.  The GLib hash table
    is modelled as an association list whose entry order is immaterial;
    `g_hash_table_replace` becomes remove-then-append. -/
abbrev TrackMap := List (String × String)

/-- Entries whose path differs from `p` (the ones a removal/replace of `p`
    keeps). -/
def keyNe (p : String) : (String × String) → Bool := fun e => decide (e.1 ≠ p)

/-- `g_hash_table_replace(tracked_values, g_strdup(path), g_strdup(text))`:
    upsert semantics on the association list. -/
def trackUpsert (m : TrackMap) (p t : String) : TrackMap :=
  m.filter (keyNe p) ++ [(p, t)]

/-- `modesetting_track_value(path, text)`.  The global `tracked_values`
    pointer is modelled as `Option TrackMap` (`none` = tracker
    uninitialized); a NULL `path`/`text` argument is `none`. -/
def modesetting_track_value (tv : Option TrackMap) (path text : Option String) :
    Option TrackMap :=
  match tv, path with
  | some m, some p =>
      match text with
      | some t => some (trackUpsert m p t)
      | none => some (m.filter (keyNe p))
  | _, _ => tv

/-- Lookup in the tracked map (first entry with the given path). -/
def lookupTrack (m : TrackMap) (p : String) : Option String :=
  (m.find? (fun e => decide (e.1 = p))).map Prod.snd

/-- Lookup through the optional tracker state. -/
def mlookup (tv : Option TrackMap) (p : String) : Option String :=
  match tv with
  | none => none
  | some m => lookupTrack m p

/- ===================================================================== *
 * Environment oracle                                                    *
 * ===================================================================== -/

/-- All external collaborators of the engine as a (pure) oracle record.
    `system` is indexed by an invocation tick so that repeated invocations
    of the same command may answer differently (e.g. an unmount that fails
    and later succeeds). -/
structure Env where
  /-- What `open`/`read` of a path yields. -/
  fs : String → OpenRes
  /-- Whether `open(path, O_WRONLY)` succeeds. -/
  writable : String → Bool
  /-- Whether the write syscalls for the given path/text succeed. -/
  writeOk : String → String → Bool
  configfs_in_use : Bool
  android_in_use : Bool
  modules_in_use : Bool
  /-- `appsync_activate_sync(mode_name)`; 0 = success. -/
  appsync_activate_sync : String → Int
  /-- Result of `configfs_set_udc(true)`. -/
  configfs_udc_ok : Bool
  /-- `config_get_android_vendor_id()` (may be NULL). -/
  android_vendor_id : Option String
  /-- `network_up(data)`; 0 = success. -/
  network_up : Int
  /-- `config_find_sync()` -/
  config_find_sync : Int
  /-- `config_find_mounts()` (may be NULL). -/
  config_find_mounts : Option String
  /-- `config_find_alt_mount()` (may be NULL). -/
  config_find_alt_mount : Option String
  /-- `realpath(m, NULL)` (NULL on failure). -/
  realpath : String → Option String
  /-- `usbmoded_system(cmd)` at invocation tick `n`. -/
  system : Nat → Cmd → Int
  /-- `access(path, R_OK) == 0` -/
  access_r : String → Bool

/-- The read primitive as the engine uses it on string values:
    `modesetting_read_from_file(path, 0x1000)` converted to a string. -/
def modesetting_readStr (env : Env) (p : String) : Option String :=
  (modesetting_read_from_file env.fs p 4096).1.map bytesToStr

/- ===================================================================== *
 * modesetting_verify_values                                             *
 * ===================================================================== -/

/-- `g_ascii_tolower` on a character. -/
def asciiLower (c : Char) : Char :=
  if 'A' ≤ c ∧ c ≤ 'Z' then Char.ofNat (c.toNat + 32) else c

/-- `g_ascii_strcasecmp(a, b) == 0`. -/
def asciiCaseEq (a b : String) : Bool :=
  decide (a.toList.map asciiLower = b.toList.map asciiLower)

/-- Update of the map by `modesetting_track_value(path, curr)` inside the
    verify sweep (the tracker is initialized there, the path non-NULL). -/
def trackMapU (m : TrackMap) (p : String) (curr : Option String) : TrackMap :=
  match curr with
  | some c => trackUpsert m p c
  | none => m.filter (keyNe p)

/-- One iteration of the `g_hash_table_iter_next` loop of
    `modesetting_verify_values`, processing tracked entry `e` against the
    evolving table `acc.1` and accumulating log lines in `acc.2`. -/
def verifyStep (env : Env) (acc : TrackMap × List LogEntry) (e : String × String) :
    TrackMap × List LogEntry :=
  let curr := modesetting_readStr env e.1
  if curr = some e.2 then acc
  else
    let lvl : LogLevel :=
      match curr with
      | some c => if asciiCaseEq e.2 c then .debug else .warning
      | none => .warning
    (trackMapU acc.1 e.1 curr, acc.2 ++ [(lvl, e.1)])

/-- The full sweep over the entries of the table (each entry of the table at
    entry to the sweep is visited exactly once, against the evolving
    table). -/
def verifyFold (env : Env) (m : TrackMap) : TrackMap × List LogEntry :=
  m.foldl (verifyStep env) (m, [])

/-- `modesetting_verify_values()`: no-op when the tracker is uninitialized;
    otherwise the sweep.  Total: never returns an error. -/
def modesetting_verify_values (env : Env) (tv : Option TrackMap) :
    Option TrackMap × List LogEntry :=
  match tv with
  | none => (none, [])
  | some m => (some (verifyFold env m).1, (verifyFold env m).2)

/- ===================================================================== *
 * modesetting_write_to_file_real                                        *
 * ===================================================================== -/

/-- `modesetting_write_to_file_real(path, text)` (the `file`/`line`/`func`
    logging arguments are immaterial).  Returns the `int` result, the new
    tracker state, and the performed side effects:

    * NULL `path` or `text`: immediately `-1`, no write attempt, tracker
      untouched;
    * the `""`/`"none"` translation applies when writing the android
      function list;
    * if the file is readable, the (possibly cleared) value is recorded in
      the tracker before the write is attempted — even if open/write fail;
    * open failure (not writable) or short/failed write yields `-1`,
      writing the empty string trivially succeeds. -/
def modesetting_write_to_file (env : Env) (tv : Option TrackMap)
    (path text : Option String) : Int × Option TrackMap × List Ev :=
  match path, text with
  | some p, some t =>
      let clear : Bool := decide (p = ANDROID0_FUNCTIONS) && (decide (t = "") || decide (t = "none"))
      let t' := if clear then "none" else t
      let prev := modesetting_readStr env p
      let tv' := if prev.isSome then
                   modesetting_track_value tv (some p) (some (if clear then "" else t))
                 else tv
      let res : Int :=
        if env.writable p then
          if t' = "" ∨ env.writeOk p t' = true then 0 else -1
        else -1
      (res, tv', [.write p t' res])
  | _, _ => (-1, tv, [])

/-- The return value of `write_to_file` does not depend on the tracker
    state; this is that value in isolation. -/
def write_result (env : Env) (path text : Option String) : Int :=
  (modesetting_write_to_file env none path text).1

/- ===================================================================== *
 * Mode descriptors and the dynamic configuration loader                 *
 * ===================================================================== -/

/-- `modedata_t` / `struct mode_list_elem`: one validated mode descriptor.
    `mode_name` and `mode_module` are non-NULL after validation; the
    remaining string fields stay nullable.  The softconnect fields are not
    read by `modedata_load` in this repository slice (they are populated
    elsewhere in the daemon), so the loader leaves them `none`. -/
structure modedata where
  mode_name : String
  mode_module : String
  appsync : Int
  mass_storage : Int
  network : Int
  network_interface : Option String
  sysfs_path : Option String
  sysfs_value : Option String
  sysfs_reset_value : Option String
  android_extra_sysfs_path : Option String
  android_extra_sysfs_value : Option String
  android_extra_sysfs_path2 : Option String
  android_extra_sysfs_value2 : Option String
  android_extra_sysfs_path3 : Option String
  android_extra_sysfs_value3 : Option String
  android_extra_sysfs_path4 : Option String
  android_extra_sysfs_value4 : Option String
  idProduct : Option String
  idVendorOverride : Option String
  nat : Int
  dhcp_server : Int
  softconnect_path : Option String
  softconnect : Option String
  softconnect_disconnect : Option String
deriving DecidableEq, Repr

/-- The observable content of one mode configuration file, as the
    `g_key_file_get_*` calls of `modedata_load` see it: `loadable` is
    whether `g_key_file_load_from_file` succeeds, string keys yield NULL
    (`none`) when missing, integer keys yield 0 when missing. -/
structure KeyFile where
  loadable : Bool
  mode_name : Option String
  mode_module : Option String
  appsync : Int
  mass_storage : Int
  network : Int
  network_interface : Option String
  sysfs_path : Option String
  sysfs_value : Option String
  sysfs_reset_value : Option String
  android_extra_sysfs_path : Option String
  android_extra_sysfs_value : Option String
  android_extra_sysfs_path2 : Option String
  android_extra_sysfs_value2 : Option String
  android_extra_sysfs_path3 : Option String
  android_extra_sysfs_value3 : Option String
  android_extra_sysfs_path4 : Option String
  android_extra_sysfs_value4 : Option String
  idProduct : Option String
  idVendorOverride : Option String
  nat : Int
  dhcp_server : Int
deriving DecidableEq, Repr

/-- `modedata_load(filename)`: read all keys, then validate:
    `mode_name`/`mode_module` must be present; `network` set demands a
    network interface; `sysfs_path` demands `sysfs_value`, and
    `sysfs_reset_value` demands `sysfs_path`.  On any failure the partially
    built descriptor is freed and NULL is returned; the emitted log lines
    are returned alongside. -/
def modedata_load (kf : KeyFile) : Option modedata × List LogEntry :=
  if ¬ kf.loadable then
    (none, [(.err, "cant read mode configuration file")])
  else if kf.mode_name = none ∨ kf.mode_module = none then
    (none, [(.err, "mode_name or mode_module not defined")])
  else if kf.network ≠ 0 ∧ kf.network_interface = none then
    (none, [(.err, "network not fully defined")])
  else if (kf.sysfs_path.isSome ∧ kf.sysfs_value = none) ∨
          (kf.sysfs_reset_value.isSome ∧ kf.sysfs_path = none) then
    (none, [(.err, "sysfs_value not fully defined")])
  else
          (some { mode_name := kf.mode_name.getD ""
                  mode_module := kf.mode_module.getD ""
                  appsync := kf.appsync
                  mass_storage := kf.mass_storage
                  network := kf.network
                  network_interface := kf.network_interface
                  sysfs_path := kf.sysfs_path
                  sysfs_value := kf.sysfs_value
                  sysfs_reset_value := kf.sysfs_reset_value
                  android_extra_sysfs_path := kf.android_extra_sysfs_path
                  android_extra_sysfs_value := kf.android_extra_sysfs_value
                  android_extra_sysfs_path2 := kf.android_extra_sysfs_path2
                  android_extra_sysfs_value2 := kf.android_extra_sysfs_value2
                  android_extra_sysfs_path3 := kf.android_extra_sysfs_path3
                  android_extra_sysfs_value3 := kf.android_extra_sysfs_value3
                  android_extra_sysfs_path4 := kf.android_extra_sysfs_path4
                  android_extra_sysfs_value4 := kf.android_extra_sysfs_value4
                  idProduct := kf.idProduct
                  idVendorOverride := kf.idVendorOverride
                  nat := kf.nat
                  dhcp_server := kf.dhcp_server
                  softconnect_path := none
                  softconnect := none
                  softconnect_disconnect := none },
           [(.debug, "successfully loaded")])

/- ===================================================================== *
 * Engine state                                                          *
 * ===================================================================== -/

/-- The engine's global mutable state: the tracker, the delayed network
    retry handle (`delayed_network`, 0 = none), the set of pending timer
    source ids of the event loop (`timers`), the next fresh source id
    (`timerNext`, GLib source ids are ≥ 1), and the invocation tick for
    `usbmoded_system`. -/
structure EngineState where
  tracked_values : Option TrackMap
  delayed_network : Nat
  timers : List Nat
  timerNext : Nat
  tick : Nat

/-- State after `modesetting_init()` on a fresh event loop. -/
def modesetting_init_state : EngineState :=
  { tracked_values := some []
    delayed_network := 0
    timers := []
    timerNext := 1
    tick := 0 }

/- ===================================================================== *
 * Mass-storage subsystem                                                *
 * ===================================================================== -/

/-- `g_strsplit(mount, ",", 0)`: split on commas (empty string gives an
    empty vector). -/
def splitCommaAux : List Char → List Char → List (List Char)
  | [], acc => [acc.reverse]
  | c :: rest, acc =>
      if c = ',' then acc.reverse :: splitCommaAux rest []
      else splitCommaAux rest (c :: acc)

/-- The configured mount point list. -/
def mountsOf (mount : String) : List String :=
  if mount = "" then [] else (splitCommaAux mount.toList []).map (fun l => String.mk l)

/-- `"/sys/devices/platform/musb_hdrc/gadget/gadget-lun%d/file"` -/
def lunFilePath (i : Int) : String :=
  "/sys/devices/platform/musb_hdrc/gadget/gadget-lun" ++ toString i ++ "/file"

/-- The module check/reload section of `modesetting_set_mass_storage_mode`:
    when a discrete module is configured and the per-unit control file for
    the last unit is missing, unload the module and reload it with the
    correct unit count; result is the `modprobe` exit status (0 when the
    section is skipped).  Returns (result, next tick, events). -/
def msModuleCheck (env : Env) (tick : Nat) (data : modedata) (mountpoints : Int) :
    Int × Nat × List Ev :=
  if data.mode_module ≠ MODULE_NONE then
    if ¬ env.access_r (lunFilePath (mountpoints - 1)) then
      let r := env.system tick (.modprobe MODULE_MASS_STORAGE mountpoints)
      (r, tick + 1,
       [.modulesUnload MODULE_MASS_STORAGE, .systemCmd (.modprobe MODULE_MASS_STORAGE mountpoints) r])
    else (0, tick, [])
  else (0, tick, [])

/-- The `umount:` goto loop for one mount point.  The source counts
    attempts with a variable `try` that starts at 0 and is shared across
    all mount points of one invocation; `left` is the remaining retry
    budget (`left = 3 - try`, so the source's `try != 3` is `left != 0`).
    Returns (result, remaining budget, next tick, events). -/
def umountGo (env : Env) (mountpath mount : String) : Nat → Nat → Int × Nat × Nat × List Ev
  | left, tick =>
      let r := env.system tick (.grepMount mountpath)
      if r = 0 then
        let r2 := env.system (tick + 1) (.umount mountpath)
        if r2 = 0 then
          (0, left, tick + 2,
           [.systemCmd (.grepMount mountpath) r, .systemCmd (.umount mountpath) r2])
        else
          match left with
          | 0 =>
              (r2, 0, tick + 2,
               [.systemCmd (.grepMount mountpath) r, .systemCmd (.umount mountpath) r2,
                .report mount 2, .errorSignal .umount_error])
          | left' + 1 =>
              let rec_ := umountGo env mountpath mount left' (tick + 2)
              (rec_.1, rec_.2.1, rec_.2.2.1,
               [.systemCmd (.grepMount mountpath) r, .systemCmd (.umount mountpath) r2,
                .sleep 1, .report mount 1] ++ rec_.2.2.2)
      else
        /- already unmounted: ret set to 0, no error -/
        (0, left, tick + 1, [.systemCmd (.grepMount mountpath) r])

/-- The unmount loop over all mount points (shared retry budget `left`).
    A hard unmount failure returns from the whole enable operation. -/
def umountAll (env : Env) (mounts : List String) (mount : String) :
    Nat → Nat → Int × Nat × List Ev
  | left, tick =>
      match mounts with
      | [] => (0, tick, [])
      | m :: rest =>
          let mountpath := (env.realpath m).getD m
          let r := umountGo env mountpath mount left tick
          if r.1 ≠ 0 then (r.1, r.2.2.1, r.2.2.2)
          else
            let r2 := umountAll env rest mount r.2.1 r.2.2.1
            (r2.1, r2.2.1, r.2.2.2 ++ r2.2.2)

/-- The per-unit activation loop of `modesetting_set_mass_storage_mode`
    (all results of the programming writes/commands are discarded by the
    source).  Returns the new tracker, next tick and events. -/
def msActivate (env : Env) (tv : Option TrackMap) (tick : Nat) (data : modedata)
    (mount : String) (fua : Int) :
    List (Nat × String) → Option TrackMap × Nat × List Ev
  | [] => (tv, tick, [])
  | (i, m) :: rest =>
      if data.mode_module ≠ MODULE_NONE then
        let r := env.system tick (.echoNofua fua (Int.ofNat i))
        let w := modesetting_write_to_file env tv (some (lunFilePath (Int.ofNat i))) (some m)
        let k := msActivate env w.2.1 (tick + 1) data mount fua rest
        (k.1, k.2.1,
         [.systemCmd (.echoNofua fua (Int.ofNat i)) r] ++ w.2.2 ++ k.2.2)
      else
        let w1 := modesetting_write_to_file env tv (some ANDROID0_ENABLE) (some "0")
        let w2 := modesetting_write_to_file env w1.2.1 (some ANDROID0_FUNCTIONS) (some "mass_storage")
        let w3 := modesetting_write_to_file env w2.2.1
                    (some "/sys/class/android_usb/f_mass_storage/lun/file") (some mount)
        let w4 := modesetting_write_to_file env w3.2.1 (some ANDROID0_ENABLE) (some "1")
        let k := msActivate env w4.2.1 tick data mount fua rest
        (k.1, k.2.1, w1.2.2 ++ w2.2.2 ++ w3.2.2 ++ w4.2.2 ++ k.2.2)

/-- `modesetting_set_mass_storage_mode(data)`: pre-unmount signal, mount
    point resolution, module check, unmount-with-retries, settle sleep,
    per-unit programming, and the data-in-use signal if `ret` is still 0.
    Returns (result, tracker, tick, events). -/
def modesetting_set_mass_storage_mode (env : Env) (tv : Option TrackMap) (tick : Nat)
    (data : modedata) : Int × Option TrackMap × Nat × List Ev :=
  let e0 : List Ev := [.stateSignal .pre_unmount]
  let fua := env.config_find_sync
  match env.config_find_mounts with
  | none => (0, tv, tick, e0 ++ [.stateSignal .data_in_use])
  | some mount =>
      let mounts := mountsOf mount
      let mc := msModuleCheck env tick data (Int.ofNat mounts.length)
      if mc.1 ≠ 0 then (mc.1, tv, mc.2.1, e0 ++ mc.2.2)
      else
        let ua := umountAll env mounts mount 3 mc.2.1
        if ua.1 ≠ 0 then (ua.1, tv, ua.2.1, e0 ++ mc.2.2 ++ ua.2.2)
        else
          let act := msActivate env tv ua.2.1 data mount fua mounts.enum
          (0, act.1, act.2.1,
           e0 ++ mc.2.2 ++ ua.2.2 ++ [.sleep 1] ++ act.2.2 ++ [.stateSignal .data_in_use])

/-- One iteration batch of the `modesetting_unset_mass_storage_mode` loop:
    remount-back logic (with read-only tmpfs fallback and remount-error
    signal), then either the android clear writes (descriptor present with
    no discrete module) or the per-unit clear command (no descriptor). -/
def msDeactGo (env : Env) (dataOpt : Option modedata) :
    List (Nat × String) → Int → Option TrackMap → Nat → Int × Option TrackMap × Nat × List Ev
  | [], ret, tv, tick => (ret, tv, tick, [])
  | (i, m) :: rest, _ret, tv, tick =>
      let mountpath := (env.realpath m).getD m
      let r := env.system tick (.grepMount mountpath)
      let remnt : Int × Nat × List Ev :=
        if r ≠ 0 then
          let r2 := env.system (tick + 1) (.mount mountpath)
          if r2 ≠ 0 then
            match env.config_find_alt_mount with
            | some alt =>
                let r3 := env.system (tick + 2) (.mountTmpfs alt)
                (r3, tick + 3,
                 [.systemCmd (.mount mountpath) r2, .systemCmd (.mountTmpfs alt) r3,
                  .errorSignal .re_mount_failed])
            | none =>
                (r2, tick + 2,
                 [.systemCmd (.mount mountpath) r2, .errorSignal .re_mount_failed])
          else (r2, tick + 2, [.systemCmd (.mount mountpath) r2])
        else (r, tick + 1, [])
      let clr : Option TrackMap × Nat × List Ev :=
        match dataOpt with
        | some data =>
            if data.mode_module = MODULE_NONE then
              let w1 := modesetting_write_to_file env tv
                          (some "/sys/class/android_usb/f_mass_storage/lun/file") (some "0")
              let w2 := modesetting_write_to_file env w1.2.1 (some ANDROID0_ENABLE) (some "0")
              (w2.2.1, remnt.2.1, w1.2.2 ++ w2.2.2)
            else (tv, remnt.2.1, [])
        | none =>
            let r4 := env.system remnt.2.1 (.echoClearLun (Int.ofNat i))
            (tv, remnt.2.1 + 1, [.systemCmd (.echoClearLun (Int.ofNat i)) r4])
      let k := msDeactGo env dataOpt rest remnt.1 clr.1 clr.2.1
      (k.1, k.2.1, k.2.2.1,
       [Ev.systemCmd (.grepMount mountpath) r] ++ remnt.2.2 ++ clr.2.2 ++ k.2.2.2)

/-- `modesetting_unset_mass_storage_mode(data)` (also invoked with NULL
    `data` from `modesetting_cleanup`). -/
def modesetting_unset_mass_storage_mode (env : Env) (tv : Option TrackMap) (tick : Nat)
    (dataOpt : Option modedata) : Int × Option TrackMap × Nat × List Ev :=
  match env.config_find_mounts with
  | none => (1, tv, tick, [])
  | some mount => msDeactGo env dataOpt (mountsOf mount).enum 1 tv tick

/- ===================================================================== *
 * Backend strategies (set path)                                         *
 * ===================================================================== -/

/-- The backend-selection `if/else if` chain of
    `modesetting_set_dynamic_mode` (configfs / android / modules / none).
    Returns the backend result `ret`, the new tracker and the events. -/
def modesetting_set_dynamic_backend (env : Env) (tv : Option TrackMap) (data : modedata) :
    Int × Option TrackMap × List Ev :=
  if env.configfs_in_use then
    let r : Int := if env.configfs_udc_ok then 0 else -1
    (r, tv,
     [.configfsUdc false, .configfsProductId data.idProduct,
      .configfsVendorId (match data.idVendorOverride with
                         | some v => some v
                         | none => env.android_vendor_id),
      .configfsFunction data.sysfs_value, .configfsUdc true])
  else if env.android_in_use then
    /- make sure things are disabled before changing functionality
       (result discarded) -/
    let w0 := modesetting_write_to_file env tv data.softconnect_path data.softconnect_disconnect
    /- ret is assigned only when an extra sysfs value is configured -/
    let w1 : Int × Option TrackMap × List Ev :=
      if data.android_extra_sysfs_value.isSome then
        modesetting_write_to_file env w0.2.1 data.android_extra_sysfs_path
          data.android_extra_sysfs_value
      else (1, w0.2.1, [])
    /- second extra pair: result discarded -/
    let w2 := modesetting_write_to_file env w1.2.1 data.android_extra_sysfs_path2
                data.android_extra_sysfs_value2
    let e3 : List Ev := [.setProductId data.idProduct, .setVendorId data.idVendorOverride]
    /- the primary sysfs write: result discarded -/
    let w4 := modesetting_write_to_file env w2.2.1 data.sysfs_path data.sysfs_value
    /- enable the device (only when ret == 0) -/
    let w5 : Int × Option TrackMap × List Ev :=
      if w1.1 = 0 then
        modesetting_write_to_file env w4.2.1 data.softconnect_path data.softconnect
      else (w1.1, w4.2.1, [])
    (w5.1, w5.2.1, w0.2.2 ++ w1.2.2 ++ w2.2.2 ++ e3 ++ w4.2.2 ++ w5.2.2)
  else if env.modules_in_use then
    (0, tv, [])
  else
    (1, tv, [])

/- ===================================================================== *
 * modesetting_set_dynamic_mode                                          *
 * ===================================================================== -/

/-- `modesetting_set_dynamic_mode()` with the current mode data passed
    explicitly (the source reads it from `usbmoded_get_usb_mode_data()`).
    Build configuration: `APP_SYNC` defined, `DEBIAN`/`CONNMAN` undefined.
    Returns (result, new engine state, events). -/
def modesetting_set_dynamic_mode (env : Env) (st : EngineState) (dataOpt : Option modedata) :
    Int × EngineState × List Ev :=
  match dataOpt with
  | none => (1, st, [])
  | some data =>
      if data.mass_storage ≠ 0 then
        let r := modesetting_set_mass_storage_mode env st.tracked_values st.tick data
        (r.1, { st with tracked_values := r.2.1, tick := r.2.2.1 }, r.2.2.2)
      else
        let preRes : Option Int :=
          if data.appsync ≠ 0 then some (env.appsync_activate_sync data.mode_name) else none
        let preEvs : List Ev :=
          match preRes with
          | some r => [.appsyncPre data.mode_name r]
          | none => []
        if preRes.getD 0 ≠ 0 then
          (1, st, preEvs)
        else
          let b := modesetting_set_dynamic_backend env st.tracked_values data
          let ret := b.1
          let network : Int := if data.network ≠ 0 then env.network_up else 1
          let netEvs : List Ev :=
            if data.network ≠ 0 then [.networkDown, .networkUp env.network_up] else []
          let sched : EngineState × List Ev :=
            if network ≠ 0 ∧ data.network ≠ 0 then
              ({ st with
                   tracked_values := b.2.1
                   delayed_network := st.timerNext
                   timers := (if st.delayed_network ≠ 0 then
                                st.timers.erase st.delayed_network
                              else st.timers) ++ [st.timerNext]
                   timerNext := st.timerNext + 1 },
               (if st.delayed_network ≠ 0 then [Ev.cancelTimer st.delayed_network] else []) ++
               [Ev.scheduleTimer st.timerNext])
            else ({ st with tracked_values := b.2.1 }, [])
          let dhcpEvs : List Ev :=
            if data.nat ≠ 0 ∨ data.dhcp_server ≠ 0 then [.setupDhcpd] else []
          let postEvs : List Ev :=
            if data.appsync ≠ 0 ∧ ret = 0 then [.msleep 350, .appsyncPost data.mode_name] else []
          let errEvs : List Ev :=
            if ret ≠ 0 then [.errorSignal .mode_setting_failed] else []
          (ret, sched.1,
           preEvs ++ b.2.2 ++ netEvs ++ sched.2 ++ dhcpEvs ++ postEvs ++ errEvs)

/- ===================================================================== *
 * modesetting_unset_dynamic_mode                                        *
 * ===================================================================== -/

/-- `modesetting_unset_dynamic_mode()` with the current mode data passed
    explicitly.  Cancels any pending delayed network retry first, then
    dispatches per mode / backend.  Returns (new engine state, events). -/
def modesetting_unset_dynamic_mode (env : Env) (st : EngineState) (dataOpt : Option modedata) :
    EngineState × List Ev :=
  let cancelEvs : List Ev :=
    if st.delayed_network ≠ 0 then [.cancelTimer st.delayed_network] else []
  let st1 :=
    if st.delayed_network ≠ 0 then
      { st with timers := st.timers.erase st.delayed_network, delayed_network := 0 }
    else st
  match dataOpt with
  | none => (st1, cancelEvs)
  | some data =>
      if data.mode_name = MODE_MASS_STORAGE then
        let r := modesetting_unset_mass_storage_mode env st1.tracked_values st1.tick (some data)
        ({ st1 with tracked_values := r.2.1, tick := r.2.2.1 }, cancelEvs ++ r.2.2.2)
      else
        let netEvs : List Ev := if data.network ≠ 0 then [.networkDown] else []
        if env.configfs_in_use then
          /- leave as is; reprogrammed wholesale on the next set -/
          (st1, cancelEvs ++ netEvs)
        else if env.android_in_use then
          let w0 := modesetting_write_to_file env st1.tracked_values data.softconnect_path
                      data.softconnect_disconnect
          let w1 := modesetting_write_to_file env w0.2.1 data.sysfs_path data.sysfs_reset_value
          let vEvs : List Ev :=
            match data.idVendorOverride with
            | some _ => [.setVendorId env.android_vendor_id]
            | none => []
          let w2 := modesetting_write_to_file env w1.2.1 data.softconnect_path data.softconnect
          ({ st1 with tracked_values := w2.2.1 }, cancelEvs ++ netEvs ++ w0.2.2 ++ w1.2.2 ++ vEvs ++ w2.2.2)
        else
          /- modules_in_use: unloading happens elsewhere; and the
             no-backend branch only logs -/
          (st1, cancelEvs ++ netEvs)

/- ===================================================================== *
 * Timer firing and operation sequences                                  *
 * ===================================================================== -/

/-- The event loop dispatches a pending timer: the GLib source is removed
    (the callback returns FALSE) and `modesetting_network_retry` resets
    `delayed_network` to 0 before calling `network_up`. -/
def fireTimer (st : EngineState) : EngineState :=
  match st.timers with
  | [] => st
  | _ :: rest => { st with timers := rest, delayed_network := 0 }

/-- One externally triggered engine operation. -/
inductive EngOp where
  | activate (env : Env) (dataOpt : Option modedata)
  | deactivate (env : Env) (dataOpt : Option modedata)
  | fire

/-- State transition of one operation. -/
def engStep (st : EngineState) (op : EngOp) : EngineState :=
  match op with
  | .activate env d => (modesetting_set_dynamic_mode env st d).2.1
  | .deactivate env d => (modesetting_unset_dynamic_mode env st d).1
  | .fire => fireTimer st

/-- The delayed-network timer invariant: the pending timer set is empty
    exactly when no retry is scheduled, and otherwise contains exactly the
    scheduled source id (which is a previously handed-out nonzero id). -/
def TimerInv (st : EngineState) : Prop :=
  0 < st.timerNext ∧
  ((st.delayed_network = 0 ∧ st.timers = []) ∨
   (st.delayed_network ≠ 0 ∧ st.timers = [st.delayed_network] ∧
    st.delayed_network < st.timerNext))

/- ===================================================================== *
 * Concrete environments and descriptors used by witnesses               *
 * ===================================================================== -/

/-- A simple android-backend environment: every path readable as missing,
    every path writable, every write succeeding, all collaborators
    succeeding. -/
def baseEnv : Env :=
  { fs := fun _ => .enoent
    writable := fun _ => true
    writeOk := fun _ _ => true
    configfs_in_use := false
    android_in_use := true
    modules_in_use := false
    appsync_activate_sync := fun _ => 0
    configfs_udc_ok := true
    android_vendor_id := some "18d1"
    network_up := 0
    config_find_sync := 0
    config_find_mounts := none
    config_find_alt_mount := none
    realpath := fun _ => none
    system := fun _ _ => 0
    access_r := fun _ => true }

/-- A minimal dynamic-mode descriptor. -/
def baseData : modedata :=
  { mode_name := "dyn_mode"
    mode_module := "none"
    appsync := 0
    mass_storage := 0
    network := 0
    network_interface := none
    sysfs_path := none
    sysfs_value := none
    sysfs_reset_value := none
    android_extra_sysfs_path := none
    android_extra_sysfs_value := none
    android_extra_sysfs_path2 := none
    android_extra_sysfs_value2 := none
    android_extra_sysfs_path3 := none
    android_extra_sysfs_value3 := none
    android_extra_sysfs_path4 := none
    android_extra_sysfs_value4 := none
    idProduct := none
    idVendorOverride := none
    nat := 0
    dhcp_server := 0
    softconnect_path := none
    softconnect := none
    softconnect_disconnect := none }

/-- Environment where the write syscall fails exactly on path "sp". -/
def envC1 : Env := { baseEnv with writeOk := fun p _ => decide (p ≠ "sp") }

/-- Android descriptor whose primary sysfs pair is ("sp", "mtp"), with an
    extra sysfs pair and soft-connect control configured. -/
def dC1 : modedata :=
  { baseData with
      sysfs_path := some "sp"
      sysfs_value := some "mtp"
      android_extra_sysfs_path := some "xp"
      android_extra_sysfs_value := some "xv"
      idProduct := some "0x0001"
      softconnect_path := some "sc"
      softconnect := some "1"
      softconnect_disconnect := some "0" }

/-- Mass-storage environment: one configured mount point "m" that is
    already unmounted, every write failing at open time. -/
def envC2 : Env :=
  { baseEnv with
      writable := fun _ => false
      config_find_mounts := some "m"
      system := fun _ cmd => match cmd with
        | .grepMount _ => 1
        | _ => 0 }

/-- Mass-storage descriptor without a discrete module. -/
def dC2 : modedata := { baseData with mode_name := "mass_storage", mass_storage := 1 }

/-- Android descriptor with soft-connect and a primary sysfs path but no
    configured reset value and no vendor override. -/
def dC3 : modedata :=
  { baseData with
      softconnect_path := some "sc"
      softconnect := some "1"
      softconnect_disconnect := some "0"
      sysfs_path := some "sp" }

/-- `dC3` with a configured reset value. -/
def dC3w : modedata := { dC3 with sysfs_reset_value := some "rv0" }

/-- Mass-storage environment for the shared-retry-budget scenario: mount
    points "a" and "b" both always report as mounted; unmounting "b" always
    fails; unmounting "a" fails on the first two attempts (ticks 1 and 3)
    and succeeds on the third (tick 5). -/
def envC4c : Env :=
  { baseEnv with
      config_find_mounts := some "a,b"
      system := fun n cmd => match cmd with
        | .grepMount _ => 0
        | .umount s => if s = "b" then 1 else if n < 4 then 1 else 0
        | _ => 0 }

/-- Mass-storage environment where the single mount point "m" is mounted
    and unmounting always fails. -/
def envC4w : Env :=
  { baseEnv with
      config_find_mounts := some "m"
      system := fun _ cmd => match cmd with
        | .grepMount _ => 0
        | .umount _ => 1
        | _ => 0 }

/-- Mass-storage descriptor without a discrete module (for the unmount
    retry scenarios). -/
def dC4 : modedata := { baseData with mode_name := "mass_storage", mass_storage := 1 }

/-- File system with a single file containing "  hi\t\thi " style content:
    bytes 32,104,105,9,9,104,105,32. -/
def fsC9w : String → OpenRes := fun _ => .ok [32, 104, 105, 9, 9, 104, 105, 32]

/-- File system with a single file containing "a\0b" (an embedded NUL). -/
def fsC9c : String → OpenRes := fun _ => .ok [97, 0, 98]

/-- Key file violating the network invariant: network enabled without an
    interface. -/
def kfC7 : KeyFile :=
  { loadable := true
    mode_name := some "m"
    mode_module := some "none"
    appsync := 0
    mass_storage := 0
    network := 1
    network_interface := none
    sysfs_path := none
    sysfs_value := none
    sysfs_reset_value := none
    android_extra_sysfs_path := none
    android_extra_sysfs_value := none
    android_extra_sysfs_path2 := none
    android_extra_sysfs_value2 := none
    android_extra_sysfs_path3 := none
    android_extra_sysfs_value3 := none
    android_extra_sysfs_path4 := none
    android_extra_sysfs_value4 := none
    idProduct := none
    idVendorOverride := none
    nat := 0
    dhcp_server := 0 }


/- ===================================================================== *
 * Theorems: byte classes and the strip/collapse equivalence             *
 * ===================================================================== -/

/-- A nonzero byte that is not source-whitespace is printable (kept). -/
theorem keepb_of_nz_not_wsb {c : Nat} (h0 : c ≠ 0) (hw : wsb c = false) : keepb c = true := by
  simp only [wsb, decide_eq_false_iff_not, not_and, not_le] at hw
  simp only [keepb, decide_eq_true_eq]
  omega

/-- Truncation at the first NUL commutes with taking the printable run. -/
theorem takeWhile_nzb_keepb (m : List Nat) :
    (m.takeWhile nzb).takeWhile keepb = m.takeWhile keepb := by
  induction m with
  | nil => rfl
  | cons c t ih =>
    by_cases h0 : c = 0
    · simp [List.takeWhile_cons, nzb, keepb, h0]
    · by_cases h32 : 32 < c
      · simp [List.takeWhile_cons, nzb, keepb, h0, h32, ih]
      · simp [List.takeWhile_cons, nzb, keepb, h0, h32]

/-- Truncation at the first NUL commutes with dropping the printable run. -/
theorem dropWhile_keepb_takeWhile_nzb (m : List Nat) :
    (m.takeWhile nzb).dropWhile keepb = (m.dropWhile keepb).takeWhile nzb := by
  induction m with
  | nil => rfl
  | cons c t ih =>
    by_cases h0 : c = 0
    · simp [List.takeWhile_cons, List.dropWhile_cons, nzb, keepb, h0]
    · by_cases h32 : 32 < c
      · simp [List.takeWhile_cons, List.dropWhile_cons, nzb, keepb, h0, h32, ih]
      · simp [List.takeWhile_cons, List.dropWhile_cons, nzb, keepb, h0, h32]

/-- Dropping the source whitespace class then truncating at NUL is
    truncating first and dropping the spec whitespace class. -/
theorem takeWhile_nzb_dropWhile_wsb (l : List Nat) :
    (l.dropWhile wsb).takeWhile nzb =
      (l.takeWhile nzb).dropWhile (fun c => decide (c ≤ 32)) := by
  induction l with
  | nil => rfl
  | cons c t ih =>
    by_cases h0 : c = 0
    · simp [List.takeWhile_cons, List.dropWhile_cons, nzb, wsb, h0]
    · by_cases h32 : 32 < c
      · have hn : ¬ c ≤ 32 := by omega
        simp [List.takeWhile_cons, List.dropWhile_cons, nzb, wsb, h0, hn]
      · have hp : 0 < c := by omega
        have hle : c ≤ 32 := by omega
        simp [List.takeWhile_cons, List.dropWhile_cons, nzb, wsb, h0, hp, hle, ih]

/-- The truncation at NUL is empty exactly when the buffer is exhausted or
    starts with a NUL. -/
theorem takeWhile_nzb_eq_nil_iff (x : List Nat) :
    x.takeWhile nzb = [] ↔ (x = [] ∨ x.head? = some 0) := by
  cases x with
  | nil => simp
  | cons c t =>
    by_cases h0 : c = 0
    · simp [List.takeWhile_cons, nzb, h0]
    · simp [List.takeWhile_cons, nzb, h0]

/-- `spec_words` is empty exactly when the input is all whitespace. -/
theorem spec_words_eq_nil_iff (x : List Nat) :
    spec_words x = [] ↔ x.dropWhile (fun c => decide (c ≤ 32)) = [] := by
  by_cases h : x.dropWhile (fun c => decide (c ≤ 32)) = []
  · rw [spec_words, if_pos h]
    simp [h]
  · rw [spec_words, if_neg h]
    simp [h]

/-- `joinWords` on a cons with nonempty tail. -/
theorem joinWords_cons (w : List Nat) (ws : List (List Nat)) (h : ws ≠ []) :
    joinWords (w :: ws) = w ++ 32 :: joinWords ws := by
  cases ws with
  | nil => exact absurd rfl h
  | cons a as => rfl

/-- If `takeWhile p` yields a cons, the list starts with that head and the
    head satisfies `p`. -/
theorem takeWhile_eq_cons (p : Nat → Bool) (l : List Nat) (c : Nat) (t : List Nat)
    (h : l.takeWhile p = c :: t) :
    ∃ l', l = c :: l' ∧ p c = true ∧ l'.takeWhile p = t := by
  cases l with
  | nil => simp at h
  | cons a l' =>
    by_cases hp : p a
    · rw [List.takeWhile_cons_of_pos hp] at h
      injection h with h1 h2
      subst h1
      exact ⟨l', rfl, hp, h2⟩
    · rw [List.takeWhile_cons_of_neg hp] at h
      simp at h

/-- The strip loop at the empty buffer. -/
theorem stripMain_nil : stripMain [] = [] := by
  rw [stripMain]
  simp

/-- The strip loop at a buffer starting with NUL. -/
theorem stripMain_cons_zero (t : List Nat) : stripMain (0 :: t) = [] := by
  have hk : ¬ keepb 0 = true := by simp [keepb]
  have hw : ¬ wsb 0 = true := by simp [wsb]
  rw [stripMain]
  rw [List.dropWhile_cons_of_neg hk, List.dropWhile_cons_of_neg hw,
      List.takeWhile_cons_of_neg hk]
  simp

/-- Main equivalence, by strong induction on the length: the strip loop of
    the source computes exactly the spec's collapse of the buffer truncated
    at its first NUL byte. -/
theorem stripMain_spec : ∀ n, ∀ l : List Nat, l.length ≤ n →
    stripMain (l.dropWhile wsb) = joinWords (spec_words (l.takeWhile nzb)) := by
  intro n
  induction n with
  | zero =>
    intro l hl
    have h0 : l = [] := List.length_eq_zero.mp (Nat.le_zero.mp hl)
    subst h0
    show stripMain [] = joinWords (spec_words [])
    rw [stripMain_nil, (spec_words_eq_nil_iff []).mpr rfl]
    rfl
  | succ n ih =>
    intro l hl
    have key : (l.takeWhile nzb).dropWhile (fun c => decide (c ≤ 32)) =
        (l.dropWhile wsb).takeWhile nzb := (takeWhile_nzb_dropWhile_wsb l).symm
    cases hTm : (l.dropWhile wsb).takeWhile nzb with
    | nil =>
      have hsw : spec_words (l.takeWhile nzb) = [] := by
        rw [spec_words_eq_nil_iff, key, hTm]
      rw [hsw]
      have hme : l.dropWhile wsb = [] ∨ (l.dropWhile wsb).head? = some 0 :=
        (takeWhile_nzb_eq_nil_iff _).mp hTm
      cases hm : l.dropWhile wsb with
      | nil => rw [stripMain_nil]; rfl
      | cons c m' =>
        rw [hm] at hme
        rcases hme with hme | hme
        · simp at hme
        · simp only [List.head?_cons, Option.some.injEq] at hme
          subst hme
          rw [stripMain_cons_zero]
          rfl
    | cons c t =>
      obtain ⟨m'', hm, hnzc, _⟩ := takeWhile_eq_cons nzb (l.dropWhile wsb) c t hTm
      have hwc : wsb c = false := dropWhile_head_false wsb l c m'' hm
      have hkc : keepb c = true := keepb_of_nz_not_wsb (by simpa [nzb] using hnzc) hwc
      /- spec side: one word then the rest -/
      have hne : ¬ (l.takeWhile nzb).dropWhile (fun c => decide (c ≤ 32)) = [] := by
        rw [key, hTm]
        simp
      have hsw : spec_words (l.takeWhile nzb) =
          ((l.dropWhile wsb).takeWhile keepb) ::
            spec_words (((l.dropWhile wsb).dropWhile keepb).takeWhile nzb) := by
        rw [spec_words, if_neg hne, key]
        rw [takeWhile_nzb_keepb, dropWhile_keepb_takeWhile_nzb]
      /- induction hypothesis at the remainder -/
      have hlen : ((l.dropWhile wsb).dropWhile keepb).length ≤ n := by
        have h1 : (l.dropWhile wsb).length ≤ l.length := dropWhile_len_le _ _
        have h2 : ((l.dropWhile wsb).dropWhile keepb).length ≤ m''.length := by
          rw [hm, List.dropWhile_cons_of_pos hkc]
          exact dropWhile_len_le _ _
        have h3 : m''.length + 1 = (l.dropWhile wsb).length := by
          rw [hm]; rfl
        omega
      have hih := ih ((l.dropWhile wsb).dropWhile keepb) hlen
      /- the strip loop's termination condition matches spec-word emptiness -/
      have hrest : (((l.dropWhile wsb).dropWhile keepb).dropWhile wsb = [] ∨
            (((l.dropWhile wsb).dropWhile keepb).dropWhile wsb).head? = some 0) ↔
          spec_words (((l.dropWhile wsb).dropWhile keepb).takeWhile nzb) = [] := by
        rw [spec_words_eq_nil_iff, ← takeWhile_nzb_dropWhile_wsb,
            takeWhile_nzb_eq_nil_iff]
      by_cases hcond : ((l.dropWhile wsb).dropWhile keepb).dropWhile wsb = [] ∨
          (((l.dropWhile wsb).dropWhile keepb).dropWhile wsb).head? = some 0
      · have hswnil := hrest.mp hcond
        rw [stripMain, if_pos hcond, hsw, hswnil]
        rfl
      · have hswne : spec_words (((l.dropWhile wsb).dropWhile keepb).takeWhile nzb) ≠ [] := by
          intro hx
          exact hcond (hrest.mpr hx)
        rw [stripMain, if_neg hcond, hsw,
            joinWords_cons _ _ hswne, hih]

/-- `modesetting_strip` computes the spec's whitespace collapse of the
    buffer truncated at its first NUL byte. -/
theorem strip_eq_spec (l : List Nat) :
    modesetting_strip l = spec_collapse (l.takeWhile nzb) :=
  stripMain_spec l.length l (le_refl _)

/- ===================================================================== *
 * Claim C9: the bounded read primitive                                  *
 * ===================================================================== -/

/-- C9 (amended): for every path, the read primitive uses at most 4096
    bytes of the file; a missing file or permission failure yields "no
    value" with no log line at all (in particular none at warning level);
    a readable file yields the spec's whitespace collapse of the content
    truncated at its first NUL byte (rather than of the whole content). -/
theorem claim_C9_theorem (fs : String → OpenRes) (path : String) (b : List Nat) :
    ((fs path = .enoent ∨ fs path = .eacces) →
      modesetting_read_from_file fs path 4096 = (none, [])) ∧
    (fs path = .ok b →
      modesetting_read_from_file fs path 4096 =
        (some (spec_collapse ((b.take 4096).takeWhile nzb)), [])) := by
  constructor
  · rintro (h | h) <;> simp [modesetting_read_from_file, h]
  · intro h
    simp [modesetting_read_from_file, h, strip_eq_spec]

/-- C9 witness: a concrete readable file with tabs and spaces around two
    words is collapsed to the two words separated by a single space. -/
theorem claim_C9_witness :
    modesetting_read_from_file fsC9w "p" 4096 = (some [104, 105, 32, 104, 105], []) := by
  have h := (claim_C9_theorem fsC9w "p" [32, 104, 105, 9, 9, 104, 105, 32]).2 rfl
  rw [h]
  norm_num [nzb]
  rw [spec_collapse, spec_words]
  norm_num [keepb]
  rw [spec_words]
  norm_num [keepb]
  rw [spec_words]
  norm_num [joinWords]

/-- C9 counterexample: on content "a\0b" the code returns "a" (the buffer
    is a C string, truncated at the embedded NUL), while collapsing every
    maximal whitespace/control run of the content would give "a b". -/
theorem claim_C9_counterexample :
    modesetting_read_from_file fsC9c "p" 4096 = (some [97], []) ∧
    spec_collapse [97, 0, 98] = [97, 32, 98] ∧
    ([97] : List Nat) ≠ [97, 32, 98] := by
  refine ⟨?_, ?_, by decide⟩
  · have h := (claim_C9_theorem fsC9c "p" [97, 0, 98]).2 rfl
    rw [h]
    norm_num [nzb]
    rw [spec_collapse, spec_words]
    norm_num [keepb]
    rw [spec_words]
    norm_num [joinWords]
  · rw [spec_collapse, spec_words]
    norm_num [keepb]
    rw [spec_words]
    norm_num [keepb]
    rw [spec_words]
    norm_num [joinWords]

/- ===================================================================== *
 * Claim C10: the write primitive's NULL guard                           *
 * ===================================================================== -/

/-- C10: a NULL path or NULL text makes `write_to_file` return `-1`
    immediately: no write attempt is made (no event) and the tracker state
    is returned unchanged. -/
theorem claim_C10_theorem (env : Env) (tv : Option TrackMap) (path text : Option String)
    (h : path = none ∨ text = none) :
    modesetting_write_to_file env tv path text = (-1, tv, []) := by
  rcases h with h | h
  · subst h
    cases text <;> rfl
  · subst h
    cases path <;> rfl

/-- C10 witness. -/
theorem claim_C10_witness :
    modesetting_write_to_file baseEnv (some []) (some "p") none = (-1, some [], []) :=
  claim_C10_theorem baseEnv (some []) (some "p") none (Or.inr rfl)

/- ===================================================================== *
 * Claim C8: the tracker's record operation                              *
 * ===================================================================== -/

/-- Lookup through a cons. -/
theorem lookupTrack_cons (e : String × String) (t : TrackMap) (p : String) :
    lookupTrack (e :: t) p = if e.1 = p then some e.2 else lookupTrack t p := by
  by_cases h : e.1 = p
  · simp [lookupTrack, List.find?_cons, h]
  · simp [lookupTrack, List.find?_cons, h]

/-- `keyNe` at a matching entry. -/
theorem keyNe_false {p : String} {e : String × String} (h : e.1 = p) :
    keyNe p e = false := by
  simp [keyNe, h]

/-- `keyNe` at a non-matching entry. -/
theorem keyNe_true {p : String} {e : String × String} (h : e.1 ≠ p) :
    keyNe p e = true := by
  simp [keyNe, h]

/-- Removing a path makes its lookup fail. -/
theorem lookupTrack_filter_self (m : TrackMap) (p : String) :
    lookupTrack (m.filter (keyNe p)) p = none := by
  induction m with
  | nil => rfl
  | cons e t ih =>
    by_cases h : e.1 = p
    · rw [List.filter_cons_of_neg (by simp [keyNe_false h])]
      exact ih
    · rw [List.filter_cons_of_pos (keyNe_true h), lookupTrack_cons, if_neg h]
      exact ih

/-- Removing a path leaves other lookups unchanged. -/
theorem lookupTrack_filter_ne (m : TrackMap) (p q : String) (h : q ≠ p) :
    lookupTrack (m.filter (keyNe p)) q = lookupTrack m q := by
  induction m with
  | nil => rfl
  | cons e t ih =>
    by_cases he : e.1 = p
    · have hq : e.1 ≠ q := by
        rw [he]
        exact fun hh => h hh.symm
      rw [List.filter_cons_of_neg (by simp [keyNe_false he]), lookupTrack_cons, if_neg hq]
      exact ih
    · rw [List.filter_cons_of_pos (keyNe_true he), lookupTrack_cons, lookupTrack_cons]
      by_cases heq : e.1 = q <;> simp [heq, ih]

/-- Appending a fresh binding at the end: lookup of its path. -/
theorem lookupTrack_append_self (l : TrackMap) (p t : String) (h : ∀ e ∈ l, e.1 ≠ p) :
    lookupTrack (l ++ [(p, t)]) p = some t := by
  induction l with
  | nil => simp [lookupTrack_cons]
  | cons e l' ih =>
    have he : e.1 ≠ p := h e (by simp)
    rw [List.cons_append, lookupTrack_cons]
    simp only [he, if_false]
    exact ih (fun x hx => h x (by simp [hx]))

/-- Appending a binding at the end: other lookups fall through. -/
theorem lookupTrack_append_ne (l : TrackMap) (p t q : String) (h : q ≠ p) :
    lookupTrack (l ++ [(p, t)]) q = lookupTrack l q := by
  induction l with
  | nil =>
    rw [List.nil_append, lookupTrack_cons, if_neg (fun hh => h hh.symm)]
  | cons e l' ih =>
    rw [List.cons_append, lookupTrack_cons, lookupTrack_cons]
    by_cases heq : e.1 = q <;> simp [heq, ih]

/-- The upsert stores the new value under the path. -/
theorem lookupTrack_upsert_self (m : TrackMap) (p t : String) :
    lookupTrack (trackUpsert m p t) p = some t := by
  unfold trackUpsert
  apply lookupTrack_append_self
  intro e he
  have hm : e ∈ m ∧ keyNe p e = true := List.mem_filter.mp he
  simpa [keyNe] using hm.2

/-- The upsert leaves other paths unchanged. -/
theorem lookupTrack_upsert_ne (m : TrackMap) (p t q : String) (h : q ≠ p) :
    lookupTrack (trackUpsert m p t) q = lookupTrack m q := by
  unfold trackUpsert
  rw [lookupTrack_append_ne _ _ _ _ h, lookupTrack_filter_ne _ _ _ h]

/-- C8: `modesetting_track_value` is a total no-op when the tracker is
    uninitialized or the path is absent (NULL), and never fails its caller;
    with an initialized tracker and a path, a present value is upserted and
    an absent value removes the entry, leaving all other paths unchanged. -/
theorem claim_C8_theorem (tv : Option TrackMap) (path text : Option String) :
    ((tv = none ∨ path = none) → modesetting_track_value tv path text = tv) ∧
    (∀ (m : TrackMap) (p : String), tv = some m → path = some p →
      mlookup (modesetting_track_value tv path text) p = text ∧
      ∀ q, q ≠ p → mlookup (modesetting_track_value tv path text) q = mlookup tv q) := by
  constructor
  · rintro (h | h)
    · subst h
      cases path <;> rfl
    · subst h
      cases tv <;> rfl
  · intro m p htv hp
    subst htv
    subst hp
    cases text with
    | some t =>
      refine ⟨?_, ?_⟩
      · simp [modesetting_track_value, mlookup, lookupTrack_upsert_self]
      · intro q hq
        simp [modesetting_track_value, mlookup, lookupTrack_upsert_ne _ _ _ _ hq]
    | none =>
      refine ⟨?_, ?_⟩
      · simp [modesetting_track_value, mlookup, lookupTrack_filter_self]
      · intro q hq
        simp [modesetting_track_value, mlookup, lookupTrack_filter_ne _ _ _ hq]

/-- C8 witness. -/
theorem claim_C8_witness :
    mlookup (modesetting_track_value (some []) (some "p") (some "v")) "p" = some "v" :=
  ((claim_C8_theorem (some []) (some "p") (some "v")).2 [] "p" rfl rfl).1

/- ===================================================================== *
 * Claim C7: descriptor validation at load time                          *
 * ===================================================================== -/

/-- C7: a loadable configuration that violates a descriptor invariant
    (network without interface; reset value without sysfs path; sysfs path
    without sysfs value) yields no descriptor and an error-level log line:
    it is rejected, not silently repaired. -/
theorem claim_C7_theorem (kf : KeyFile) (hl : kf.loadable = true)
    (hv : (kf.network ≠ 0 ∧ kf.network_interface = none) ∨
          (kf.sysfs_reset_value.isSome ∧ kf.sysfs_path = none) ∨
          (kf.sysfs_path.isSome ∧ kf.sysfs_value = none)) :
    (modedata_load kf).1 = none ∧ LogLevel.err ∈ (modedata_load kf).2.map Prod.fst := by
  unfold modedata_load
  rw [if_neg (by simp [hl])]
  by_cases hnm : kf.mode_name = none ∨ kf.mode_module = none
  · rw [if_pos hnm]
    simp
  · rw [if_neg hnm]
    by_cases hnet : kf.network ≠ 0 ∧ kf.network_interface = none
    · rw [if_pos hnet]
      simp
    · rw [if_neg hnet]
      have hsys : (kf.sysfs_path.isSome ∧ kf.sysfs_value = none) ∨
          (kf.sysfs_reset_value.isSome ∧ kf.sysfs_path = none) := by
        rcases hv with h | h | h
        · exact absurd h hnet
        · exact Or.inr h
        · exact Or.inl h
      rw [if_pos hsys]
      simp

/-- C7 witness: a key file with `network = 1` but no interface is
    rejected. -/
theorem claim_C7_witness :
    (modedata_load kfC7).1 = none ∧ LogLevel.err ∈ (modedata_load kfC7).2.map Prod.fst :=
  claim_C7_theorem kfC7 rfl (Or.inl (by decide))

/- ===================================================================== *
 * Claim C6: drift absorption in verify_values                           *
 * ===================================================================== -/

/-- Membership in an upsert. -/
theorem mem_trackUpsert {e : String × String} {m : TrackMap} {p t : String}
    (h : e ∈ trackUpsert m p t) : e = (p, t) ∨ (e ∈ m ∧ e.1 ≠ p) := by
  unfold trackUpsert at h
  rcases List.mem_append.mp h with h | h
  · have hm : e ∈ m ∧ keyNe p e = true := List.mem_filter.mp h
    right
    exact ⟨hm.1, by simpa [keyNe] using hm.2⟩
  · left
    simpa using h

/-- Membership in a removal. -/
theorem mem_filter_keyNe {e : String × String} {m : TrackMap} {p : String}
    (h : e ∈ m.filter (keyNe p)) : e ∈ m ∧ e.1 ≠ p := by
  have hm : e ∈ m ∧ keyNe p e = true := List.mem_filter.mp h
  exact ⟨hm.1, by simpa [keyNe] using hm.2⟩

/-- Membership after a verify-sweep tracker update. -/
theorem mem_trackMapU {e : String × String} {m : TrackMap} {p : String}
    {curr : Option String} (h : e ∈ trackMapU m p curr) :
    (∃ c, curr = some c ∧ e = (p, c)) ∨ (e ∈ m ∧ e.1 ≠ p) := by
  cases curr with
  | some c =>
    rcases mem_trackUpsert h with h | h
    · exact Or.inl ⟨c, rfl, h⟩
    · exact Or.inr h
  | none => exact Or.inr (mem_filter_keyNe h)

/-- After the sweep has processed all of `todo` (whose keys are distinct)
    against an evolving table that agrees with `todo` on the unprocessed
    keys and is already live-accurate elsewhere, every surviving entry is
    live-accurate. -/
theorem verify_go_mem (env : Env) :
    ∀ (todo : List (String × String)) (acc : TrackMap) (lg : List LogEntry),
      (todo.map Prod.fst).Nodup →
      (∀ e ∈ acc, e.1 ∈ todo.map Prod.fst → e ∈ todo) →
      (∀ e ∈ acc, e.1 ∉ todo.map Prod.fst → modesetting_readStr env e.1 = some e.2) →
      ∀ e' ∈ (todo.foldl (verifyStep env) (acc, lg)).1,
        modesetting_readStr env e'.1 = some e'.2 := by
  intro todo
  induction todo with
  | nil =>
    intro acc lg _ _ hdone e' he'
    exact hdone e' he' (by simp)
  | cons e0 rest ih =>
    intro acc lg hnd hagree hdone e' he'
    rw [List.map_cons] at hnd
    have hnotin : e0.1 ∉ rest.map Prod.fst := (List.nodup_cons.mp hnd).1
    have hnd' : (rest.map Prod.fst).Nodup := (List.nodup_cons.mp hnd).2
    rw [List.foldl_cons] at he'
    by_cases hcur : modesetting_readStr env e0.1 = some e0.2
    · have hstep : verifyStep env (acc, lg) e0 = (acc, lg) := by
        simp [verifyStep, hcur]
      rw [hstep] at he'
      refine ih acc lg hnd' ?_ ?_ e' he'
      · intro e he hkey
        have hin : e ∈ e0 :: rest := hagree e he (by simp [hkey])
        rcases List.mem_cons.mp hin with h | h
        · exfalso
          apply hnotin
          rw [h] at hkey
          exact hkey
        · exact h
      · intro e he hkey
        by_cases hk0 : e.1 = e0.1
        · have hin : e ∈ e0 :: rest := hagree e he (by simp [hk0])
          rcases List.mem_cons.mp hin with h | h
          · rw [h]
            exact hcur
          · exact absurd (List.mem_map_of_mem Prod.fst h) hkey
        · have hnk : e.1 ∉ (e0 :: rest).map Prod.fst := by
            simp only [List.map_cons, List.mem_cons]
            rintro (h | h)
            · exact hk0 h
            · exact hkey h
          exact hdone e he hnk
    · have hstep : verifyStep env (acc, lg) e0 =
          (trackMapU acc e0.1 (modesetting_readStr env e0.1),
           lg ++ [(match modesetting_readStr env e0.1 with
                   | some c => if asciiCaseEq e0.2 c then LogLevel.debug else LogLevel.warning
                   | none => LogLevel.warning, e0.1)]) := by
        simp [verifyStep, hcur]
      rw [hstep] at he'
      refine ih _ _ hnd' ?_ ?_ e' he'
      · intro e he hkey
        rcases mem_trackMapU he with ⟨c, _, hec⟩ | ⟨hem, hne⟩
        · exfalso
          apply hnotin
          rw [hec] at hkey
          exact hkey
        · have hin : e ∈ e0 :: rest := hagree e hem (by simp [hkey])
          rcases List.mem_cons.mp hin with h | h
          · exfalso
            apply hne
            rw [h]
          · exact h
      · intro e he hkey
        rcases mem_trackMapU he with ⟨c, hc, hec⟩ | ⟨hem, hne⟩
        · rw [hec]
          exact hc
        · have hnk : e.1 ∉ (e0 :: rest).map Prod.fst := by
            simp only [List.map_cons, List.mem_cons]
            rintro (h | h)
            · exact hne h
            · exact hkey h
          exact hdone e hem hnk

/-- A sweep over entries that already match the live values changes
    nothing and logs nothing. -/
theorem verify_fold_fixed (env : Env) :
    ∀ (l : List (String × String)) (a : TrackMap) (lg : List LogEntry),
      (∀ e ∈ l, modesetting_readStr env e.1 = some e.2) →
      l.foldl (verifyStep env) (a, lg) = (a, lg) := by
  intro l
  induction l with
  | nil => intro a lg _; rfl
  | cons e0 rest ih =>
    intro a lg h
    rw [List.foldl_cons]
    have hstep : verifyStep env (a, lg) e0 = (a, lg) := by
      simp [verifyStep, h e0 (by simp)]
    rw [hstep]
    exact ih a lg (fun e he => h e (by simp [he]))

/-- C6: after one `verify_values` sweep absorbed all drift (tracked values
    updated to the live values, entries with unreadable paths removed), a
    second sweep with unchanged environment changes nothing and produces no
    log output; the sweep is total and never fails its caller. -/
theorem claim_C6_theorem (env : Env) (m : TrackMap)
    (hnd : (m.map Prod.fst).Nodup) :
    modesetting_verify_values env (modesetting_verify_values env (some m)).1 =
      ((modesetting_verify_values env (some m)).1, []) := by
  have hall : ∀ e ∈ (verifyFold env m).1, modesetting_readStr env e.1 = some e.2 := by
    intro e he
    refine verify_go_mem env m m [] hnd (fun e he _ => he) ?_ e he
    intro e he hk
    exact absurd (List.mem_map_of_mem Prod.fst he) hk
  have h2 : verifyFold env (verifyFold env m).1 = ((verifyFold env m).1, []) :=
    verify_fold_fixed env _ _ _ hall
  show (some (verifyFold env (verifyFold env m).1).1,
        (verifyFold env (verifyFold env m).1).2) =
      (some (verifyFold env m).1, [])
  rw [h2]

/-- C6 witness: a tracker with one entry whose path is unreadable — the
    first sweep removes it, the second is silent. -/
theorem claim_C6_witness :
    modesetting_verify_values baseEnv (modesetting_verify_values baseEnv (some [("a", "x")])).1 =
      ((modesetting_verify_values baseEnv (some [("a", "x")])).1, []) :=
  claim_C6_theorem baseEnv [("a", "x")] (by decide)

/- ===================================================================== *
 * Claim C1: what gates success of the android set routine               *
 * ===================================================================== -/

/-- The result of `write_to_file` does not depend on the tracker state. -/
theorem write_to_file_fst (env : Env) (tv : Option TrackMap) (path text : Option String) :
    (modesetting_write_to_file env tv path text).1 = write_result env path text := by
  cases path <;> cases text <;> rfl

/-- The android branch's return value: gated by the extra-sysfs write (1 if
    no extra value is configured) and then the soft-connect re-enable; the
    primary sysfs write's return value is discarded. -/
theorem backend_result (env : Env) (tv : Option TrackMap) (d : modedata)
    (hc : env.configfs_in_use = false) (ha : env.android_in_use = true) :
    (modesetting_set_dynamic_backend env tv d).1 =
      (if d.android_extra_sysfs_value.isSome then
         (if write_result env d.android_extra_sysfs_path d.android_extra_sysfs_value = 0 then
            write_result env d.softconnect_path d.softconnect
          else write_result env d.android_extra_sysfs_path d.android_extra_sysfs_value)
       else 1) := by
  unfold modesetting_set_dynamic_backend
  by_cases hex : d.android_extra_sysfs_value.isSome
  · by_cases hw : write_result env d.android_extra_sysfs_path d.android_extra_sysfs_value = 0
    · simp [hc, ha, hex, hw, write_to_file_fst]
    · simp [hc, ha, hex, hw, write_to_file_fst]
  · simp [hc, ha, hex]

/-- The dynamic-mode set routine returns the backend branch's result. -/
theorem set_dynamic_fst (env : Env) (st : EngineState) (d : modedata)
    (hm : d.mass_storage = 0) (hs : d.appsync = 0) :
    (modesetting_set_dynamic_mode env st (some d)).1 =
      (modesetting_set_dynamic_backend env st.tracked_values d).1 := by
  unfold modesetting_set_dynamic_mode
  simp [hm, hs]

/-- C1 (amended): with the android backend active (mass-storage and appsync
    out of the way), the set routine succeeds iff an extra sysfs value is
    configured, the extra-pair write succeeds, and the soft-connect
    re-enable write succeeds.  The return code of the primary
    sysfs_path/sysfs_value write is discarded and does not gate success. -/
theorem claim_C1_theorem (env : Env) (st : EngineState) (d : modedata)
    (hc : env.configfs_in_use = false) (ha : env.android_in_use = true)
    (hm : d.mass_storage = 0) (hs : d.appsync = 0) :
    (modesetting_set_dynamic_mode env st (some d)).1 = 0 ↔
      (d.android_extra_sysfs_value.isSome = true ∧
       write_result env d.android_extra_sysfs_path d.android_extra_sysfs_value = 0 ∧
       write_result env d.softconnect_path d.softconnect = 0) := by
  rw [set_dynamic_fst env st d hm hs, backend_result env st.tracked_values d hc ha]
  by_cases hex : d.android_extra_sysfs_value.isSome
  · by_cases hw : write_result env d.android_extra_sysfs_path d.android_extra_sysfs_value = 0
    · simp [hex, hw]
    · simp [hex, hw]
  · simp [hex]

/-- C1 counterexample: with `envC1` the primary sysfs write (to "sp")
    fails with -1, yet the set routine reports success (0), because the
    primary write's return code is discarded.  This falsifies "the set
    routine succeeds iff the primary write succeeds". -/
theorem claim_C1_counterexample :
    (modesetting_set_dynamic_mode envC1 modesetting_init_state (some dC1)).1 = 0 ∧
    write_result envC1 dC1.sysfs_path dC1.sysfs_value = -1 ∧
    Ev.write "sp" "mtp" (-1) ∈
      (modesetting_set_dynamic_mode envC1 modesetting_init_state (some dC1)).2.2 := by
  refine ⟨by decide, by decide, by decide⟩

/-- C1 witness: with every write succeeding and an extra sysfs value
    configured, the set routine succeeds. -/
theorem claim_C1_witness :
    (modesetting_set_dynamic_mode baseEnv modesetting_init_state (some dC1)).1 = 0 :=
  (claim_C1_theorem baseEnv modesetting_init_state dC1 rfl rfl rfl rfl).mpr (by decide)

/- ===================================================================== *
 * Claim C3: the android unset routine                                   *
 * ===================================================================== -/

/-- Event emitted by a write call whose path is not the android function
    list (so the `""`/`"none"` translation does not apply). -/
theorem write_to_file_evs (env : Env) (tv : Option TrackMap) (p t : String)
    (hp : p ≠ ANDROID0_FUNCTIONS) :
    (modesetting_write_to_file env tv (some p) (some t)).2.2 =
      [Ev.write p t (write_result env (some p) (some t))] := by
  simp [modesetting_write_to_file, write_result, hp]

/-- C3 (amended): for an android-backend descriptor the unset routine
    first writes the soft-connect disconnect value, then writes the
    configured `sysfs_reset_value` to `sysfs_path` when one is configured
    (when none is configured no write to `sysfs_path` happens at all — the
    write primitive rejects the absent text; no "original value" is
    written), then restores the default vendor id when the descriptor had
    a vendor-id override, and finally re-enables soft-connect. -/
theorem claim_C3_theorem (env : Env) (st : EngineState) (d : modedata)
    (sp dv cv pp rv : String)
    (hc : env.configfs_in_use = false) (ha : env.android_in_use = true)
    (hdn : st.delayed_network = 0)
    (hmn : d.mode_name ≠ MODE_MASS_STORAGE) (hnw : d.network = 0)
    (hsp : d.softconnect_path = some sp) (hdv : d.softconnect_disconnect = some dv)
    (hcv : d.softconnect = some cv) (hpp : d.sysfs_path = some pp)
    (hrv : d.sysfs_reset_value = some rv)
    (hspf : sp ≠ ANDROID0_FUNCTIONS) (hppf : pp ≠ ANDROID0_FUNCTIONS) :
    (modesetting_unset_dynamic_mode env st (some d)).2 =
      [Ev.write sp dv (write_result env (some sp) (some dv)),
       Ev.write pp rv (write_result env (some pp) (some rv))] ++
      (match d.idVendorOverride with
       | some _ => [Ev.setVendorId env.android_vendor_id]
       | none => []) ++
      [Ev.write sp cv (write_result env (some sp) (some cv))] := by
  unfold modesetting_unset_dynamic_mode
  simp [hdn, hmn, hnw, hc, ha, hsp, hdv, hcv, hpp, hrv,
        write_to_file_evs _ _ _ _ hspf, write_to_file_evs _ _ _ _ hppf]

/-- C3 counterexample: for a descriptor with no configured reset value the
    unset routine performs only the two soft-connect writes — no write to
    the primary sysfs path "sp" occurs, neither of a reset value nor of
    any "original" value. -/
theorem claim_C3_counterexample :
    (modesetting_unset_dynamic_mode baseEnv modesetting_init_state (some dC3)).2 =
      [Ev.write "sc" "0" 0, Ev.write "sc" "1" 0] := by
  decide

/-- C3 witness: with a configured reset value the full sequence
    disconnect / reset / re-enable is performed. -/
theorem claim_C3_witness :
    (modesetting_unset_dynamic_mode baseEnv modesetting_init_state (some dC3w)).2 =
      [Ev.write "sc" "0" 0, Ev.write "sp" "rv0" 0, Ev.write "sc" "1" 0] := by
  have h := claim_C3_theorem baseEnv modesetting_init_state dC3w "sc" "0" "1" "sp" "rv0"
    rfl rfl rfl (by decide) rfl rfl rfl rfl rfl rfl (by decide) (by decide)
  rw [h]
  decide

/- ===================================================================== *
 * Claim C2: the data-in-use signal and the enable result                *
 * ===================================================================== -/

/-- Events of the module check contain no state signal and no write. -/
theorem msModuleCheck_evs (env : Env) (tick : Nat) (data : modedata) (mp : Int) :
    ∀ e ∈ (msModuleCheck env tick data mp).2.2,
      (∀ s, e ≠ Ev.stateSignal s) ∧ (∀ p t r, e ≠ Ev.write p t r) := by
  unfold msModuleCheck
  split_ifs <;> simp

/-- Events of the unmount retry loop contain no state signal and no
    write. -/
theorem umountGo_evs (env : Env) (mountpath mount : String) :
    ∀ left tick, ∀ e ∈ (umountGo env mountpath mount left tick).2.2.2,
      (∀ s, e ≠ Ev.stateSignal s) ∧ (∀ p t r, e ≠ Ev.write p t r) := by
  intro left
  induction left with
  | zero =>
    intro tick e he
    unfold umountGo at he
    by_cases h1 : env.system tick (.grepMount mountpath) = 0
    · by_cases h2 : env.system (tick + 1) (.umount mountpath) = 0
      · simp [h1, h2] at he
        rcases he with he | he <;> simp [he]
      · simp [h1, h2] at he
        rcases he with he | he | he | he <;> simp [he]
    · simp [h1] at he
      simp [he]
  | succ n ih =>
    intro tick e he
    unfold umountGo at he
    by_cases h1 : env.system tick (.grepMount mountpath) = 0
    · by_cases h2 : env.system (tick + 1) (.umount mountpath) = 0
      · simp [h1, h2] at he
        rcases he with he | he <;> simp [he]
      · simp [h1, h2] at he
        rcases he with he | he | he | he | he
        · simp [he]
        · simp [he]
        · simp [he]
        · simp [he]
        · exact ih (tick + 2) e he
    · simp [h1] at he
      simp [he]

/-- Events of the unmount loop over all mount points contain no state
    signal and no write. -/
theorem umountAll_evs (env : Env) (mount : String) :
    ∀ (mounts : List String) (left tick : Nat),
      ∀ e ∈ (umountAll env mounts mount left tick).2.2,
        (∀ s, e ≠ Ev.stateSignal s) ∧ (∀ p t r, e ≠ Ev.write p t r) := by
  intro mounts
  induction mounts with
  | nil => intro left tick e he; simp [umountAll] at he
  | cons m rest ih =>
    intro left tick e he
    simp only [umountAll] at he
    by_cases h1 : (umountGo env ((env.realpath m).getD m) mount left tick).1 ≠ 0
    · rw [if_pos h1] at he
      exact umountGo_evs env _ mount left tick e he
    · rw [if_neg h1] at he
      rcases List.mem_append.mp he with he | he
      · exact umountGo_evs env _ mount left tick e he
      · exact ih _ _ e he

/-- C2 (amended): the data-in-use signal is emitted exactly when the
    enable operation reports success, and that report reflects only the
    module check/reload and unmount phases: every per-unit programming
    write happens only in runs that already report success (the write
    results themselves are discarded and cannot affect the outcome). -/
theorem claim_C2_theorem (env : Env) (tv : Option TrackMap) (tick : Nat) (data : modedata) :
    ((modesetting_set_mass_storage_mode env tv tick data).1 = 0 ↔
      Ev.stateSignal .data_in_use ∈ (modesetting_set_mass_storage_mode env tv tick data).2.2.2) ∧
    (∀ p t r, Ev.write p t r ∈ (modesetting_set_mass_storage_mode env tv tick data).2.2.2 →
      (modesetting_set_mass_storage_mode env tv tick data).1 = 0) := by
  cases hm : env.config_find_mounts with
  | none => simp [modesetting_set_mass_storage_mode, hm]
  | some mount =>
    simp only [modesetting_set_mass_storage_mode, hm]
    by_cases h1 : (msModuleCheck env tick data (Int.ofNat (mountsOf mount).length)).1 ≠ 0
    · rw [if_pos h1]
      constructor
      · constructor
        · intro h
          exact absurd h h1
        · intro hmem
          exfalso
          rcases List.mem_append.mp hmem with h | h
          · simp at h
          · exact ((msModuleCheck_evs env tick data _ _ h).1 _) rfl
      · intro p t r hmem
        exfalso
        rcases List.mem_append.mp hmem with h | h
        · simp at h
        · exact ((msModuleCheck_evs env tick data _ _ h).2 p t r) rfl
    · rw [if_neg h1]
      by_cases h2 : (umountAll env (mountsOf mount) mount 3
          (msModuleCheck env tick data (Int.ofNat (mountsOf mount).length)).2.1).1 ≠ 0
      · rw [if_pos h2]
        constructor
        · constructor
          · intro h
            exact absurd h h2
          · intro hmem
            exfalso
            rcases List.mem_append.mp hmem with h | h
            · rcases List.mem_append.mp h with h | h
              · simp at h
              · exact ((msModuleCheck_evs env tick data _ _ h).1 _) rfl
            · exact ((umountAll_evs env mount _ _ _ _ h).1 _) rfl
        · intro p t r hmem
          exfalso
          rcases List.mem_append.mp hmem with h | h
          · rcases List.mem_append.mp h with h | h
            · simp at h
            · exact ((msModuleCheck_evs env tick data _ _ h).2 p t r) rfl
          · exact ((umountAll_evs env mount _ _ _ _ h).2 p t r) rfl
      · rw [if_neg h2]
        constructor
        · simp
        · intro p t r _
          rfl

/-- C2 counterexample: with every per-unit programming write failing
    (files not writable) but the unmount phase trivially succeeding, the
    enable routine still returns 0 and emits the data-in-use signal — the
    claim's "if and only if every step (including programming of every
    logical unit's attributes) succeeded" is false on the code. -/
theorem claim_C2_counterexample :
    (modesetting_set_mass_storage_mode envC2 (some []) 0 dC2).1 = 0 ∧
    Ev.write ANDROID0_ENABLE "1" (-1) ∈
      (modesetting_set_mass_storage_mode envC2 (some []) 0 dC2).2.2.2 ∧
    Ev.stateSignal .data_in_use ∈
      (modesetting_set_mass_storage_mode envC2 (some []) 0 dC2).2.2.2 := by
  refine ⟨by decide, by decide, by decide⟩

/-- C2 witness: in a successful run the data-in-use signal is emitted. -/
theorem claim_C2_witness :
    Ev.stateSignal Sig.data_in_use ∈
      (modesetting_set_mass_storage_mode baseEnv (some []) 0 dC2).2.2.2 :=
  (claim_C2_theorem baseEnv (some []) 0 dC2).1.mp (by decide)

/- ===================================================================== *
 * Claim C4: the unmount retry policy                                    *
 * ===================================================================== -/

/-- C4 (amended): when the retry budget is intact (no earlier mount point
    consumed retries), a mounted mount point whose unmount keeps failing
    receives exactly 4 unmount attempts — the initial one plus 3 retries,
    each retry preceded by a 1-unit sleep and a blocking-process report —
    and after the 4th failed attempt the blockers are reported again (with
    the give-up marker), the unmount-error signal is emitted, and the
    operation returns the failure without any gadget-programming write and
    without the data-in-use signal. -/
theorem claim_C4_theorem (env : Env) (tv : Option TrackMap) (tick : Nat) (data : modedata)
    (mnt m : String)
    (hm : env.config_find_mounts = some mnt)
    (hms : mountsOf mnt = [m])
    (hrp : env.realpath m = none)
    (hmod : data.mode_module = MODULE_NONE)
    (hg : ∀ n, env.system n (.grepMount m) = 0)
    (hu : ∀ n, env.system n (.umount m) = 1) :
    modesetting_set_mass_storage_mode env tv tick data =
      (1, tv, tick + 8,
       [.stateSignal .pre_unmount,
        .systemCmd (.grepMount m) 0, .systemCmd (.umount m) 1, .sleep 1, .report mnt 1,
        .systemCmd (.grepMount m) 0, .systemCmd (.umount m) 1, .sleep 1, .report mnt 1,
        .systemCmd (.grepMount m) 0, .systemCmd (.umount m) 1, .sleep 1, .report mnt 1,
        .systemCmd (.grepMount m) 0, .systemCmd (.umount m) 1, .report mnt 2,
        .errorSignal .umount_error]) := by
  simp only [modesetting_set_mass_storage_mode, hm, hms]
  simp only [msModuleCheck, hmod]
  simp only [umountAll, umountGo, hrp, Option.getD_none]
  simp only [hg, hu]
  norm_num

/-- C4 witness: one configured mount point, mounted, unmount always
    failing — exactly 4 unmount attempts, 3 sleep-and-report retries, a
    final give-up report, the unmount-error signal, and a failing result
    with no programming write and no data-in-use signal. -/
theorem claim_C4_witness :
    modesetting_set_mass_storage_mode envC4w (some []) 0 dC4 =
      (1, some [], 8,
       [.stateSignal .pre_unmount,
        .systemCmd (.grepMount "m") 0, .systemCmd (.umount "m") 1, .sleep 1, .report "m" 1,
        .systemCmd (.grepMount "m") 0, .systemCmd (.umount "m") 1, .sleep 1, .report "m" 1,
        .systemCmd (.grepMount "m") 0, .systemCmd (.umount "m") 1, .sleep 1, .report "m" 1,
        .systemCmd (.grepMount "m") 0, .systemCmd (.umount "m") 1, .report "m" 2,
        .errorSignal .umount_error]) :=
  claim_C4_theorem envC4w (some []) 0 dC4 "m" "m" rfl (by decide) rfl rfl
    (fun _ => rfl) (fun _ => rfl)

/-- C4 counterexample: the retry counter is shared across mount points.
    With mount points "a" and "b" both mounted, "a"'s unmount failing twice
    before succeeding and "b"'s unmount always failing, the mounted mount
    point "b" — whose unmount keeps failing — receives only 2 unmount
    attempts (not 4) before the give-up report, the unmount-error signal
    and the failure return. -/
theorem claim_C4_counterexample :
    (modesetting_set_mass_storage_mode envC4c (some []) 0 dC4).1 = 1 ∧
    (modesetting_set_mass_storage_mode envC4c (some []) 0 dC4).2.2.2.countP
        (fun e => match e with | .systemCmd (.umount "b") _ => true | _ => false) = 2 ∧
    (modesetting_set_mass_storage_mode envC4c (some []) 0 dC4).2.2.2.countP
        (fun e => match e with | .systemCmd (.umount "b") 1 => true | _ => false) = 2 ∧
    Ev.systemCmd (.grepMount "b") 0 ∈
      (modesetting_set_mass_storage_mode envC4c (some []) 0 dC4).2.2.2 ∧
    Ev.errorSignal .umount_error ∈
      (modesetting_set_mass_storage_mode envC4c (some []) 0 dC4).2.2.2 := by
  refine ⟨by decide, by decide, by decide, by decide, by decide⟩

/- ===================================================================== *
 * Claim C5: at most one pending delayed network retry                   *
 * ===================================================================== -/

/-- Activation preserves the timer invariant: the scheduling branch first
    removes any outstanding retry source and then registers exactly one
    fresh one; every other branch leaves the timer state untouched. -/
theorem inv_activate (env : Env) (st : EngineState) (d : Option modedata)
    (h : TimerInv st) : TimerInv (modesetting_set_dynamic_mode env st d).2.1 := by
  cases d with
  | none => exact h
  | some data =>
    simp only [modesetting_set_dynamic_mode]
    by_cases hms : data.mass_storage ≠ 0
    · rw [if_pos hms]
      exact ⟨h.1, by rcases h.2 with h2 | h2 <;> [exact Or.inl h2; exact Or.inr h2]⟩
    · rw [if_neg hms]
      by_cases habort :
          (if data.appsync ≠ 0 then some (env.appsync_activate_sync data.mode_name)
           else none).getD 0 ≠ 0
      · rw [if_pos habort]
        exact h
      · rw [if_neg habort]
        by_cases hsch : ((if data.network ≠ 0 then env.network_up else 1) ≠ 0 ∧
            data.network ≠ 0)
        · rw [if_pos hsch]
          obtain ⟨hpos, hcase⟩ := h
          dsimp only [TimerInv]
          refine ⟨by omega, Or.inr ⟨by omega, ?_, by omega⟩⟩
          rcases hcase with ⟨h0, ht⟩ | ⟨h0, ht, _⟩
          · simp [h0, ht]
          · simp [h0, ht, List.erase_cons_head]
        · rw [if_neg hsch]
          exact ⟨h.1, by rcases h.2 with h2 | h2 <;> [exact Or.inl h2; exact Or.inr h2]⟩

/-- Deactivation always cancels: afterwards no retry is pending, the timer
    set is empty, and the id counter is unchanged. -/
theorem deact_state (env : Env) (st : EngineState) (d : Option modedata)
    (h : TimerInv st) :
    (modesetting_unset_dynamic_mode env st d).1.delayed_network = 0 ∧
    (modesetting_unset_dynamic_mode env st d).1.timers = [] ∧
    (modesetting_unset_dynamic_mode env st d).1.timerNext = st.timerNext := by
  simp only [modesetting_unset_dynamic_mode]
  have hst1 :
      (if st.delayed_network ≠ 0 then
        { st with timers := st.timers.erase st.delayed_network, delayed_network := 0 }
      else st).delayed_network = 0 ∧
      (if st.delayed_network ≠ 0 then
        { st with timers := st.timers.erase st.delayed_network, delayed_network := 0 }
      else st).timers = [] ∧
      (if st.delayed_network ≠ 0 then
        { st with timers := st.timers.erase st.delayed_network, delayed_network := 0 }
      else st).timerNext = st.timerNext := by
    rcases h.2 with ⟨h0, ht⟩ | ⟨h0, ht, _⟩
    · rw [if_neg (by simp [h0])]
      exact ⟨h0, ht, rfl⟩
    · rw [if_pos h0]
      simp [ht]
  cases d with
  | none => exact hst1
  | some data =>
    dsimp only
    by_cases hmn : data.mode_name = MODE_MASS_STORAGE
    · rw [if_pos hmn]
      exact hst1
    · rw [if_neg hmn]
      by_cases hcf : env.configfs_in_use = true
      · rw [if_pos hcf]
        exact hst1
      · rw [if_neg hcf]
        by_cases han : env.android_in_use = true
        · rw [if_pos han]
          exact hst1
        · rw [if_neg han]
          exact hst1

/-- Deactivation preserves the timer invariant. -/
theorem inv_deactivate (env : Env) (st : EngineState) (d : Option modedata)
    (h : TimerInv st) : TimerInv (modesetting_unset_dynamic_mode env st d).1 := by
  obtain ⟨h0, ht, hn⟩ := deact_state env st d h
  exact ⟨by rw [hn]; exact h.1, Or.inl ⟨h0, ht⟩⟩

/-- Firing a pending timer preserves the timer invariant. -/
theorem inv_fire (st : EngineState) (h : TimerInv st) : TimerInv (fireTimer st) := by
  rcases h.2 with ⟨h0, ht⟩ | ⟨h0, ht, _⟩
  · unfold fireTimer
    rw [ht]
    exact h
  · unfold fireTimer
    rw [ht]
    exact ⟨h.1, Or.inl ⟨rfl, rfl⟩⟩

/-- Every operation preserves the timer invariant. -/
theorem inv_step (st : EngineState) (op : EngOp) (h : TimerInv st) :
    TimerInv (engStep st op) := by
  cases op with
  | activate env d => exact inv_activate env st d h
  | deactivate env d => exact inv_deactivate env st d h
  | fire => exact inv_fire st h

/-- The timer invariant holds along every operation sequence. -/
theorem inv_steps (ops : List EngOp) :
    ∀ st : EngineState, TimerInv st → TimerInv (ops.foldl engStep st) := by
  induction ops with
  | nil => intro st h; exact h
  | cons op rest ih =>
    intro st h
    rw [List.foldl_cons]
    exact ih _ (inv_step st op h)

/-- C5: starting from the engine's initial state, after any sequence of
    activations, deactivations and timer firings at most one delayed
    network-retry timer is pending (scheduling cancels any outstanding one
    rather than stacking), and a deactivation always leaves zero pending
    timers. -/
theorem claim_C5_theorem (ops : List EngOp) :
    (ops.foldl engStep modesetting_init_state).timers.length ≤ 1 ∧
    ∀ (env : Env) (d : Option modedata),
      (engStep (ops.foldl engStep modesetting_init_state) (.deactivate env d)).timers = [] := by
  have hinv : TimerInv (ops.foldl engStep modesetting_init_state) :=
    inv_steps ops modesetting_init_state
      ⟨by norm_num [modesetting_init_state], Or.inl ⟨rfl, rfl⟩⟩
  constructor
  · rcases hinv.2 with ⟨_, ht⟩ | ⟨_, ht, _⟩ <;> simp [ht]
  · intro env d
    exact (deact_state env _ d hinv).2.1

/-- C5 witness: instance of the invariant after a concrete operation
    sequence (an activation that schedules a retry, then another that
    supersedes it, then a deactivation). -/
theorem claim_C5_witness :
    (([EngOp.activate baseEnv (some dC1), EngOp.activate baseEnv (some dC1),
       EngOp.deactivate baseEnv (some dC1)] : List EngOp).foldl engStep
        modesetting_init_state).timers.length ≤ 1 :=
  (claim_C5_theorem [EngOp.activate baseEnv (some dC1), EngOp.activate baseEnv (some dC1),
    EngOp.deactivate baseEnv (some dC1)]).1
